import Mathlib

/-!
Verification development for the AutoGluon debug-log core
(`core/src/autogluon/core/searcher/bayesopt/autogluon/debug_log.py`) and the
restricted unpickler (`core/src/autogluon/core/utils/loaders/load_pkl.py`).

The Python code is shallowly embedded: configurations (Python dicts mapping
parameter names to scalar values) become ordered association lists, in-place
mutation becomes explicit state passing, and a raised exception becomes an
`Except.error` carrying the message together with the object state at the
moment of the raise (Python mutates objects in place, so state changes made
before an exception survive it).
-/

namespace AutogluonDebugLog

/-- A scalar configuration value: number, string, or boolean (the value
types configurations carry). -/
inductive Value where
  | int (n : Int)
  | str (s : String)
  | bool (b : Bool)
deriving DecidableEq, Repr

/-- A configuration: a Python dict, i.e. an insertion-ordered mapping from
parameter name to value.  Keys are assumed distinct as in a Python dict. -/
abbrev Config := List (String × Value)

/-- A single-quote character, as used by Python repr of strings. -/
def sq : String := String.singleton (Char.ofNat 39)

/-- Python `str(v)` on a scalar value (used by `format`). -/
def pyStr : Value → String
  | .int n => toString n
  | .str s => s
  | .bool true => "True"
  | .bool false => "False"

/-- Python `repr(v)` on a scalar value (used inside `str` of a tuple or
dict).  String escaping of embedded quotes is elided. -/
def pyRepr : Value → String
  | .int n => toString n
  | .str s => sq ++ s ++ sq
  | .bool true => "True"
  | .bool false => "False"

/-- Python `str` of a tuple whose elements have the given reprs:
`()`, `(x,)`, or `(x, y, ...)`. -/
def strTuple : List String → String
  | [] => "()"
  | [x] => "(" ++ x ++ ",)"
  | x :: xs => "(" ++ String.intercalate ", " (x :: xs) ++ ")"

/-- Python `str` of a dict with string keys (used in the duplicate-config
assertion message). -/
def strDict (d : Config) : String :=
  "\x7b" ++
    String.intercalate ", "
      (d.map (fun kv => sq ++ kv.1 ++ sq ++ ": " ++ pyRepr kv.2)) ++
  "\x7d"

/-- Python `d.get(k)`: first value bound to `k`, if any. -/
def dictGet (d : Config) (k : String) : Option Value :=
  match d.find? (fun kv => kv.1 == k) with
  | none => none
  | some kv => some kv.2

/-- Lookup in the canonical-key table (`dict` from key string to ID). -/
def tableGet (t : List (String × Nat)) (k : String) : Option Nat :=
  match t.find? (fun kv => kv.1 == k) with
  | none => none
  | some kv => some kv.2

/-- The external `ExtendedConfiguration` collaborator, reduced to what
`debug_log.py` uses: the designated resource attribute name. -/
structure ExtendedConfiguration where
  resource_attr_name : String
deriving DecidableEq, Repr

/-- Modelled from the spec: `ExtendedConfiguration.remove_resource`
(defined in `config_ext.py`, which is not part of the given sources)
returns the configuration with the resource attribute removed. -/
def remove_resource (e : ExtendedConfiguration) (c : Config) : Config :=
  c.filter (fun kv => kv.1 ≠ e.resource_attr_name)

/-- Lexicographic code-point comparison of character lists, the order
Python uses to compare strings. -/
def charListLe : List Char → List Char → Bool
  | [], _ => true
  | _ :: _, [] => false
  | a :: as, b :: bs => if a = b then charListLe as bs else decide (a < b)

/-- Python string comparison `a <= b` (lexicographic by code point). -/
def strLe (a b : String) : Bool :=
  charListLe a.data b.data

/-- Python `sorted(d.items(), key=lambda x: x[0])`: entries sorted by
parameter name (a stable sort, as Python sorts are). -/
def sortItems (d : Config) : List (String × Value) :=
  d.insertionSort (fun a b => strLe a.1 b.1 = true)

/-- The canonical key derived from an (already resource-stripped)
configuration dict: `str(tuple(v for _, v in sorted(d.items(), ...)))`.
Note that only the values enter the key, in name-sorted order. -/
def keyOf (d : Config) : String :=
  strTuple ((sortItems d).map (fun p => pyRepr p.2))

/-- Embedding of `_to_key`: returns (canonical key, resource-stripped
config dict, resource value or absent). -/
def toKey (config : Config) (ext : Option ExtendedConfiguration) :
    String × Config × Option Value :=
  let resource : Option Value :=
    match ext with
    | none => none
    | some e => dictGet config e.resource_attr_name
  let config_dict : Config :=
    match ext, resource with
    | some e, some _ => remove_resource e config
    | _, _ => config
  (keyOf config_dict, config_dict, resource)

/-- Embedding of `ConfigCounter`: maps canonical keys of (non-extended)
configs to config IDs 0, 1, 2, ...  The table is kept in insertion order,
as a Python dict is. -/
structure ConfigCounter where
  config_counter : Nat
  table : List (String × Nat)
  configspace_ext : Option ExtendedConfiguration
deriving DecidableEq, Repr

/-- Fresh `ConfigCounter(configspace_ext)`: counter 0, empty table. -/
def mkConfigCounter (ext : Option ExtendedConfiguration) : ConfigCounter :=
  { config_counter := 0, table := [], configspace_ext := ext }

/-- The assertion message of `add_config` on a duplicate key. -/
def dupMsg (dct : Config) (id : Nat) : String :=
  "Config " ++ strDict dct ++ " already has been assigned a config ID = " ++
    toString id

/-- Embedding of `ConfigCounter.add_config`.  On a duplicate canonical key
the assertion fires before any mutation, so the error carries the input
state unchanged; on success the key is bound to the current counter, the
counter is incremented, and the stripped dict plus resource are returned. -/
def add_config (cc : ConfigCounter) (config : Config) :
    Except (String × ConfigCounter) (ConfigCounter × Config × Option Value) :=
  let r := toKey config cc.configspace_ext
  match tableGet cc.table r.1 with
  | some id => .error (dupMsg r.2.1 id, cc)
  | none =>
      .ok ({ cc with
              table := cc.table ++ [(r.1, cc.config_counter)],
              config_counter := cc.config_counter + 1 },
           r.2.1, r.2.2)

/-- Embedding of `ConfigCounter.config_id`: renders the ID of a previously
inserted configuration, suffixed with `:` and the resource value when the
configuration is resource-extended.  A lookup on an unknown key is a Python
`KeyError`. -/
def config_id (cc : ConfigCounter) (config : Config) :
    Except (String × ConfigCounter) String :=
  let r := toKey config cc.configspace_ext
  match tableGet cc.table r.1 with
  | none => .error ("KeyError: " ++ r.1, cc)
  | some id =>
      match r.2.2 with
      | none => .ok (toString id)
      | some v => .ok (toString id ++ ":" ++ pyStr v)

/-- The checkpoint snapshot shape: counter plus table. -/
structure MutableState where
  config_counter : Nat
  config_id : List (String × Nat)
deriving DecidableEq, Repr

/-- Embedding of `ConfigCounter.get_mutable_state`. -/
def get_mutable_state (cc : ConfigCounter) : MutableState :=
  { config_counter := cc.config_counter, config_id := cc.table }

/-- Embedding of `ConfigCounter.set_mutable_state`. -/
def set_mutable_state (cc : ConfigCounter) (st : MutableState) : ConfigCounter :=
  { cc with config_counter := st.config_counter, table := st.config_id }

/-- The kind of a `get_config` block.  `start_get_config` asserts
membership in the two-element set, which the enum encodes. -/
inductive GCType where
  | random
  | bo
deriving DecidableEq, Repr

/-- The string the Python code stores in `get_config_type`. -/
def GCType.render : GCType → String
  | .random => "random"
  | .bo => "BO"

/-- The `block_info` dict of an open block: each field is present exactly
when the corresponding setter has stored it. -/
structure BlockInfo where
  final_config : Option String := none
  start_config : Option String := none
  stateField : Option String := none
  targets : Option String := none
  params : Option String := none
  fantasies : Option String := none
  num_evals : Option Int := none
  extra : Option String := none
deriving DecidableEq, Repr

/-- The empty `block_info` dict. -/
def emptyBlockInfo : BlockInfo := {}

/-- Embedding of `DebugLogPrinter`. -/
structure DebugLogPrinter where
  config_counter : ConfigCounter
  block_info : BlockInfo
  get_config_type : Option GCType
deriving DecidableEq, Repr

/-- Fresh `DebugLogPrinter(configspace_ext)`. -/
def mkPrinter (ext : Option ExtendedConfiguration) : DebugLogPrinter :=
  { config_counter := mkConfigCounter ext, block_info := emptyBlockInfo,
    get_config_type := none }

/-- Result of a printer method: an error carries the raised message and
the printer state at the moment of the raise; success carries the emitted
log lines and the new state. -/
abbrev PrinterResult (α : Type) := Except (String × DebugLogPrinter) α

/-- Embedding of `DebugLogPrinter.start_get_config`: fails if a block is
already open; otherwise opens one and emits an informational trace naming
the next config ID. -/
def start_get_config (p : DebugLogPrinter) (gc_type : GCType) :
    PrinterResult (String × DebugLogPrinter) :=
  match p.get_config_type with
  | some t =>
      .error ("Block for get_config of type " ++ sq ++ t.render ++ sq ++
        " is currently open", p)
  | none =>
      .ok ("Starting get_config[" ++ gc_type.render ++ "] for config_id " ++
             toString p.config_counter.config_counter,
           { p with get_config_type := some gc_type })

/-- Embedding of `DebugLogPrinter.set_final_config`.  The registry insert
(`add_config`) happens before the no-resource assertion, so when the
assertion fires the registry mutation has already taken place and is
carried in the error state. -/
def set_final_config (p : DebugLogPrinter) (config : Config) :
    PrinterResult DebugLogPrinter :=
  match p.get_config_type with
  | none => .error ("No block open right now", p)
  | some _ =>
      match add_config p.config_counter config with
      | .error e => .error (e.1, { p with config_counter := e.2 })
      | .ok (cc, dct, resource) =>
          let p2 := { p with config_counter := cc }
          match resource with
          | some _ =>
              .error ("set_final_config: config must not be extended", p2)
          | none =>
              let entries := dct.map (fun kv => kv.1 ++ ": " ++ pyStr kv.2)
              .ok { p2 with block_info :=
                      { p2.block_info with
                          final_config := some (String.intercalate "\n" entries) } }

/-- Embedding of the BO-only guard shared by `set_state`, `set_targets`,
`set_gp_params`, `set_fantasies`, `set_init_config`,
`set_num_evaluations`. -/
def requireBO (p : DebugLogPrinter) : PrinterResult Unit :=
  if p.get_config_type = some GCType.bo then .ok ()
  else .error ("Need to be in " ++ sq ++ "BO" ++ sq ++ " block", p)

/-- Embedding of `DebugLogPrinter.set_state`: renders the comma-joined ID
lists of the labeled and pending configurations.  A `config_id` lookup
failure propagates (Python `KeyError`) without storing the field. -/
def set_state (p : DebugLogPrinter) (labeled pending : List Config) :
    PrinterResult DebugLogPrinter :=
  match requireBO p with
  | .error e => .error e
  | .ok _ =>
      match labeled.mapM (config_id p.config_counter) with
      | .error e => .error (e.1, p)
      | .ok ls =>
          match pending.mapM (config_id p.config_counter) with
          | .error e => .error (e.1, p)
          | .ok ps =>
              .ok { p with block_info :=
                      { p.block_info with
                          stateField := some ("Labeled: " ++
                            String.intercalate ", " ls ++ ". Pending: " ++
                            String.intercalate ", " ps) } }

/-- Embedding of `DebugLogPrinter.set_init_config`: renders the
resource-stripped configuration the BO inner optimizer started from, with
an optional top-score line (numpy rendering abstracted as a string). -/
def set_init_config (p : DebugLogPrinter) (config : Config)
    (top_scores : Option String) : PrinterResult DebugLogPrinter :=
  match requireBO p with
  | .error e => .error e
  | .ok _ =>
      let r := toKey config p.config_counter.configspace_ext
      let entries := r.2.1.map (fun kv => kv.1 ++ ": " ++ pyStr kv.2)
      let msg := "Started BO from (top scorer):\n" ++
        String.intercalate "\n" entries
      let msg :=
        match top_scores with
        | some ts => msg ++ "\nTop score values: " ++ ts
        | none => msg
      .ok { p with block_info := { p.block_info with start_config := some msg } }

/-- Embedding of `DebugLogPrinter.set_targets`; the numpy rendering of the
flattened target vector is abstracted as the given string. -/
def set_targets (p : DebugLogPrinter) (rendered : String) :
    PrinterResult DebugLogPrinter :=
  match requireBO p with
  | .error e => .error e
  | .ok _ =>
      .ok { p with block_info :=
              { p.block_info with targets := some ("Targets: " ++ rendered) } }

/-- Embedding of `DebugLogPrinter.set_gp_params`; the `str(params)`
rendering is abstracted as the given string. -/
def set_gp_params (p : DebugLogPrinter) (rendered : String) :
    PrinterResult DebugLogPrinter :=
  match requireBO p with
  | .error e => .error e
  | .ok _ =>
      .ok { p with block_info :=
              { p.block_info with params := some ("GP params:" ++ rendered) } }

/-- Embedding of `DebugLogPrinter.set_fantasies`; the numpy rendering is
abstracted as the given string. -/
def set_fantasies (p : DebugLogPrinter) (rendered : String) :
    PrinterResult DebugLogPrinter :=
  match requireBO p with
  | .error e => .error e
  | .ok _ =>
      .ok { p with block_info :=
              { p.block_info with
                  fantasies := some ("Fantasized targets:\n" ++ rendered) } }

/-- Embedding of `DebugLogPrinter.set_num_evaluations`. -/
def set_num_evaluations (p : DebugLogPrinter) (num_evals : Int) :
    PrinterResult DebugLogPrinter :=
  match requireBO p with
  | .error e => .error e
  | .ok _ =>
      .ok { p with block_info := { p.block_info with num_evals := some num_evals } }

/-- Embedding of `DebugLogPrinter.append_extra`: newline-joined
accumulation, never overwritten. -/
def append_extra (p : DebugLogPrinter) (extra : String) : DebugLogPrinter :=
  match p.block_info.extra with
  | some old =>
      { p with block_info := { p.block_info with extra := some (old ++ "\n" ++ extra) } }
  | none => { p with block_info := { p.block_info with extra := some extra } }

/-- The diagnostic `write_block` logs when an expected BO part is absent. -/
def missingMsg (name : String) : String :=
  "debug_log.write_block: " ++ sq ++ name ++ sq ++ " part is missing!"

/-- Embedding of `DebugLogPrinter.write_block`.  Returns the single
emitted report, the diagnostics logged before it (missing-part notes), and
the cleared printer.  Accessing the absent `final_config` with `info[...]`
is a Python `KeyError`, raised before the block is cleared. -/
def write_block (p : DebugLogPrinter) :
    PrinterResult (String × List String × DebugLogPrinter) :=
  match p.get_config_type with
  | none => .error ("No block open right now", p)
  | some t =>
      let info := p.block_info
      let cid : Int := (p.config_counter.config_counter : Int) - 1
      let header :=
        match info.num_evals with
        | some n =>
            "[" ++ toString cid ++ ": " ++ t.render ++ "] (" ++ toString n ++
              " evaluations)"
        | none => "[" ++ toString cid ++ ": " ++ t.render ++ "]"
      match info.final_config with
      | none => .error ("KeyError: " ++ sq ++ "final_config" ++ sq, p)
      | some fc =>
          let boParts : List String :=
            if t = GCType.bo then
              info.start_config.toList ++ info.stateField.toList ++
                info.targets.toList ++ info.params.toList ++
                info.fantasies.toList
            else []
          let diagnostics : List String :=
            if t = GCType.bo then
              (match info.stateField with
               | some _ => []
               | none => [missingMsg "state"]) ++
              (match info.targets with
               | some _ => []
               | none => [missingMsg "targets"]) ++
              (match info.params with
               | some _ => []
               | none => [missingMsg "params"])
            else []
          let parts := header :: fc :: (boParts ++ info.extra.toList)
          .ok (String.intercalate "\n" parts, diagnostics,
               { p with get_config_type := none, block_info := emptyBlockInfo })

/-- Embedding of `DebugLogPrinter.get_mutable_state`. -/
def DebugLogPrinter.get_mutable_state (p : DebugLogPrinter) : MutableState :=
  AutogluonDebugLog.get_mutable_state p.config_counter

/-- Embedding of `DebugLogPrinter.set_mutable_state`: fails while a block
is open; otherwise restores the registry state and clears the block
buffer. -/
def DebugLogPrinter.set_mutable_state (p : DebugLogPrinter) (st : MutableState) :
    PrinterResult DebugLogPrinter :=
  match p.get_config_type with
  | some t =>
      .error ("Block for get_config of type " ++ sq ++ t.render ++ sq ++
        " is currently open", p)
  | none =>
      .ok { p with
              config_counter := AutogluonDebugLog.set_mutable_state p.config_counter st,
              block_info := emptyBlockInfo }

/-- The identifier-string rule the spec states: the bare ID for a base
configuration, `<id>:<resource-value>` for a resource-extended one. -/
def renderId (id : Nat) : Option Value → String
  | none => toString id
  | some v => toString id ++ ":" ++ pyStr v

/-- Every ID stored in the table is below the running counter (holds in
every state reachable by insertions from a fresh counter). -/
def IdsBelowCounter (cc : ConfigCounter) : Prop :=
  ∀ kv ∈ cc.table, kv.2 < cc.config_counter

instance (cc : ConfigCounter) : Decidable (IdsBelowCounter cc) := by
  unfold IdsBelowCounter
  infer_instance

/-- A sequence of `add_config` calls, all of which must succeed. -/
def insertSeq (cc : ConfigCounter) : List Config → Option ConfigCounter
  | [] => some cc
  | c :: cs =>
      match add_config cc c with
      | .ok r => insertSeq r.1 cs
      | .error _ => none

/-- Report layout as the spec describes it: header (with the just-minted
ID, i.e. counter − 1, and an optional evaluation count), the finalized
configuration, then for BO blocks the optional start-config block, the
state line, the targets line, the gp-params line and the optional
fantasies block, and finally the optional extra block; absent optional
parts are omitted. -/
def reportSpec (t : GCType) (counter : Nat) (fc : String) (info : BlockInfo) :
    String :=
  let id : Int := (counter : Int) - 1
  let header :=
    match info.num_evals with
    | some n =>
        "[" ++ toString id ++ ": " ++ t.render ++ "] (" ++ toString n ++
          " evaluations)"
    | none => "[" ++ toString id ++ ": " ++ t.render ++ "]"
  String.intercalate "\n"
    (header :: fc ::
      ((if t = GCType.bo then
          info.start_config.toList ++ info.stateField.toList ++
            info.targets.toList ++ info.params.toList ++ info.fantasies.toList
        else []) ++
       info.extra.toList))

end AutogluonDebugLog

namespace AutogluonLoadPkl

/-- The allow-list of `load_pkl.safe_builtins`. -/
def safe_builtins : List String :=
  ["range", "complex", "set", "frozenset", "slice"]

/-- Result of `RestrictedUnpickler.find_class`: either the builtin of the
given name (`getattr(builtins, name)`) or a raised `UnpicklingError`. -/
inductive FindClassResult where
  | builtin (name : String)
  | unpicklingError (msg : String)
deriving DecidableEq, Repr

/-- Embedding of `RestrictedUnpickler.find_class`: only safe classes from
builtins are allowed; everything else raises an `UnpicklingError`. -/
def find_class (module name : String) : FindClassResult :=
  if module == "builtins" && safe_builtins.contains name then
    .builtin name
  else
    .unpicklingError ("global " ++ AutogluonDebugLog.sq ++ module ++ "." ++
      name ++ AutogluonDebugLog.sq ++ " is forbidden")

end AutogluonLoadPkl

namespace AutogluonDebugLog

/-- The key component of `toKey` is the serialization of the stripped
configuration dict it also returns. -/
theorem toKey_fst (c : Config) (ext : Option ExtendedConfiguration) :
    (toKey c ext).1 = keyOf (toKey c ext).2.1 := rfl

/-- The resource component of `toKey` is the dict lookup of the resource
attribute name. -/
theorem toKey_resource (c : Config) (e : ExtendedConfiguration) :
    (toKey c (some e)).2.2 = dictGet c e.resource_attr_name := rfl

/-- Canonical keys agree whenever the name-sorted entry lists agree. -/
theorem keyOf_eq_of_sortItems_eq {d1 d2 : Config}
    (h : sortItems d1 = sortItems d2) : keyOf d1 = keyOf d2 := by
  unfold keyOf
  rw [h]

/-- A `tableGet` miss means the underlying `find?` misses. -/
theorem find?_eq_none_of_tableGet_none {t : List (String × Nat)} {k : String}
    (h : tableGet t k = none) : t.find? (fun kv => kv.1 == k) = none := by
  unfold tableGet at h
  cases hf : t.find? (fun kv => kv.1 == k) with
  | none => rfl
  | some kv => simp [hf] at h

/-- Appending a fresh binding makes it visible to `tableGet`. -/
theorem tableGet_append_self {t : List (String × Nat)} {k : String} (n : Nat)
    (h : tableGet t k = none) : tableGet (t ++ [(k, n)]) k = some n := by
  have hf := find?_eq_none_of_tableGet_none h
  unfold tableGet
  rw [List.find?_append, hf]
  simp [List.find?]

/-- Removing the resource attribute leaves no binding for it. -/
theorem dictGet_remove_resource (e : ExtendedConfiguration) (c : Config) :
    dictGet (remove_resource e c) e.resource_attr_name = none := by
  have hf : (remove_resource e c).find?
      (fun kv => kv.1 == e.resource_attr_name) = none := by
    rw [List.find?_eq_none]
    intro kv hkv
    have h1 : kv.1 ≠ e.resource_attr_name := by
      have h2 := (List.mem_filter.mp hkv).2
      simpa using h2
    simp [h1]
  unfold dictGet
  rw [hf]

/-- C1 counterexample: two configurations with different parameter names
but equal values receive the same canonical key, so equal canonical keys
do not imply identical resource-stripped entry mappings — parameter names
are not part of the serialized key. -/
theorem C1_counterexample :
    (toKey [("a", Value.int 1)] none).1 = (toKey [("b", Value.int 1)] none).1 ∧
    dictGet (toKey [("a", Value.int 1)] none).2.1 "a" ≠
      dictGet (toKey [("b", Value.int 1)] none).2.1 "a" := by
  decide

/-- C1 (amended): the canonical key is computed by removing the resource
entry (when an extractor is supplied and the entry is present), sorting
the remaining entries by parameter name, and serializing the ordered value
sequence (names omitted) into a single string; consequently two
configurations with identical resource-stripped entry mappings receive
equal canonical keys — but not conversely, since parameter names do not
enter the key. -/
theorem C1_key_from_sorted_values (c1 c2 : Config)
    (ext : Option ExtendedConfiguration)
    (h : sortItems (toKey c1 ext).2.1 = sortItems (toKey c2 ext).2.1) :
    (toKey c1 ext).1 =
      strTuple ((sortItems (toKey c1 ext).2.1).map (fun p => pyRepr p.2)) ∧
    (toKey c1 ext).1 = (toKey c2 ext).1 := by
  refine ⟨rfl, ?_⟩
  rw [toKey_fst c1 ext, toKey_fst c2 ext]
  exact keyOf_eq_of_sortItems_eq h

/-- C1 witness: the amended claim evaluated on two permutations of the
same two-entry configuration. -/
theorem C1_key_from_sorted_values_witness :
    (sortItems (toKey [("x", Value.int 1), ("y", Value.int 2)] none).2.1 =
      sortItems (toKey [("y", Value.int 2), ("x", Value.int 1)] none).2.1) ∧
    ((toKey [("x", Value.int 1), ("y", Value.int 2)] none).1 =
      strTuple
        ((sortItems (toKey [("x", Value.int 1), ("y", Value.int 2)] none).2.1).map
          (fun p => pyRepr p.2)) ∧
     (toKey [("x", Value.int 1), ("y", Value.int 2)] none).1 =
       (toKey [("y", Value.int 2), ("x", Value.int 1)] none).1) :=
  ⟨by decide,
   C1_key_from_sorted_values [("x", Value.int 1), ("y", Value.int 2)]
     [("y", Value.int 2), ("x", Value.int 1)] none (by decide)⟩

/-- C2 counterexample: on a freshly opened block in which
`set_final_config` was never called, `write_block` raises a `KeyError` on
the absent `final_config` field instead of degrading gracefully and
emitting a report. -/
theorem C2_counterexample :
    start_get_config (mkPrinter none) GCType.random =
      .ok ("Starting get_config[random] for config_id 0",
        { config_counter := mkConfigCounter none,
          block_info := emptyBlockInfo,
          get_config_type := some GCType.random }) ∧
    write_block
        { config_counter := mkConfigCounter none,
          block_info := emptyBlockInfo,
          get_config_type := some GCType.random } =
      .error ("KeyError: " ++ sq ++ "final_config" ++ sq,
        { config_counter := mkConfigCounter none,
          block_info := emptyBlockInfo,
          get_config_type := some GCType.random }) := by
  constructor <;> rfl

/-- C2 (amended): `flush` on an unopened aggregator always fails, and
`flush` on an open block in which `set_final_config` was never called
also fails, raising a `KeyError` on the absent `final_config` field and
leaving the printer unchanged; the soft-field policy covers only the BO
fields state, targets and gp-params. -/
theorem C2_flush_requires_final_config (p : DebugLogPrinter)
    (h : p.block_info.final_config = none) :
    (p.get_config_type = none →
      write_block p = .error ("No block open right now", p)) ∧
    (∀ t, p.get_config_type = some t →
      write_block p =
        .error ("KeyError: " ++ sq ++ "final_config" ++ sq, p)) := by
  constructor
  · intro h0
    unfold write_block
    rw [h0]
  · intro t ht
    unfold write_block
    rw [ht]
    simp [h]

/-- C2 witness: the amended claim evaluated on a freshly opened BO block
with no finalized configuration. -/
theorem C2_flush_requires_final_config_witness :
    write_block
        { config_counter := mkConfigCounter none,
          block_info := emptyBlockInfo,
          get_config_type := some GCType.bo } =
      .error ("KeyError: " ++ sq ++ "final_config" ++ sq,
        { config_counter := mkConfigCounter none,
          block_info := emptyBlockInfo,
          get_config_type := some GCType.bo }) :=
  (C2_flush_requires_final_config _ rfl).2 GCType.bo rfl

/-- A successful `add_config` appended a fresh binding for the canonical
key and incremented the counter, and the key was previously absent. -/
theorem add_config_ok_shape {cc : ConfigCounter} {c : Config}
    {r : ConfigCounter × Config × Option Value}
    (h : add_config cc c = .ok r) :
    r.1.table =
      cc.table ++ [((toKey c cc.configspace_ext).1, cc.config_counter)] ∧
    r.1.config_counter = cc.config_counter + 1 ∧
    r.1.configspace_ext = cc.configspace_ext ∧
    tableGet cc.table (toKey c cc.configspace_ext).1 = none := by
  unfold add_config at h
  cases hget : tableGet cc.table (toKey c cc.configspace_ext).1 with
  | some id => simp [hget] at h
  | none =>
      simp only [hget] at h
      injection h with h1
      rw [← h1]
      exact ⟨rfl, rfl, rfl, rfl⟩

/-- C3: inserting a configuration whose canonical key is already in the
table always fails with the duplicate-configuration error carrying the
previously assigned ID (never a cache hit), while a successful insert
binds the current counter value, which differs from every previously
assigned ID. -/
theorem C3_insert_duplicate_always_fails (cc : ConfigCounter) (c : Config)
    (hinv : IdsBelowCounter cc) :
    (∀ id, tableGet cc.table (toKey c cc.configspace_ext).1 = some id →
      add_config cc c =
        .error (dupMsg (toKey c cc.configspace_ext).2.1 id, cc)) ∧
    (∀ r, add_config cc c = .ok r →
      tableGet r.1.table (toKey c cc.configspace_ext).1 =
        some cc.config_counter ∧
      ∀ kv ∈ cc.table, kv.2 ≠ cc.config_counter) := by
  constructor
  · intro id hid
    unfold add_config
    simp [hid]
  · intro r hok
    obtain ⟨htbl, _, _, hget⟩ := add_config_ok_shape hok
    refine ⟨?_, ?_⟩
    · rw [htbl]
      exact tableGet_append_self _ hget
    · intro kv hkv
      exact Nat.ne_of_lt (hinv kv hkv)

/-- C3 witness: a duplicate insertion on a one-entry registry fails with
the duplicate error. -/
theorem C3_insert_duplicate_always_fails_witness :
    add_config ⟨1, [("(1,)", 0)], none⟩ [("a", Value.int 1)] =
      .error (dupMsg [("a", Value.int 1)] 0,
        ⟨1, [("(1,)", 0)], none⟩) := by
  have h :=
    (C3_insert_duplicate_always_fails ⟨1, [("(1,)", 0)], none⟩
      [("a", Value.int 1)] (by decide)).1 0 (by decide)
  simpa using h

/-- Through a run of successful insertions, the sequence of assigned IDs
stays `0, 1, 2, ...` and the counter advances by one per insertion. -/
theorem insertSeq_ids (cs : List Config) :
    ∀ cc cc2, insertSeq cc cs = some cc2 →
      cc.table.map Prod.snd = List.range cc.config_counter →
      cc2.table.map Prod.snd = List.range cc2.config_counter ∧
      cc2.config_counter = cc.config_counter + cs.length := by
  induction cs with
  | nil =>
      intro cc cc2 h hmap
      unfold insertSeq at h
      injection h with h1
      subst h1
      exact ⟨hmap, rfl⟩
  | cons c cs ih =>
      intro cc cc2 h hmap
      unfold insertSeq at h
      cases hac : add_config cc c with
      | error e => rw [hac] at h; cases h
      | ok r =>
          rw [hac] at h
          obtain ⟨htbl, hcnt, _, _⟩ := add_config_ok_shape hac
          have hmap2 : r.1.table.map Prod.snd = List.range r.1.config_counter := by
            rw [htbl, hcnt, List.map_append, hmap, List.range_succ]
            rfl
          obtain ⟨h1, h2⟩ := ih r.1 cc2 h hmap2
          refine ⟨h1, ?_⟩
          rw [h2, hcnt]
          simp
          omega

/-- C4: starting from a fresh registry, after any sequence of successful
inserts the counter equals the number of table entries, and the n-th
successful insert assigned ID n−1 (the table's ID column, in insertion
order, is exactly `0, 1, ..., n−1`), so the counter is also the next ID
to assign. -/
theorem C4_dense_id_assignment (ext : Option ExtendedConfiguration)
    (cs : List Config) (cc2 : ConfigCounter)
    (h : insertSeq (mkConfigCounter ext) cs = some cc2) :
    cc2.config_counter = cs.length ∧
    cc2.table.length = cs.length ∧
    cc2.table.map Prod.snd = List.range cs.length := by
  obtain ⟨hmap, hcount⟩ :=
    insertSeq_ids cs (mkConfigCounter ext) cc2 h (by simp [mkConfigCounter])
  have hc : cc2.config_counter = cs.length := by
    simpa [mkConfigCounter] using hcount
  refine ⟨hc, ?_, by rw [hmap, hc]⟩
  have hlen := congrArg List.length hmap
  simpa [hc] using hlen

/-- C4 witness: two successful inserts from a fresh registry yield IDs 0
and 1, counter 2, and a two-entry table. -/
theorem C4_dense_id_assignment_witness :
    insertSeq (mkConfigCounter none)
        [[("a", Value.int 1)], [("a", Value.int 2)]] =
      some ⟨2, [("(1,)", 0), ("(2,)", 1)], none⟩ ∧
    (⟨2, [("(1,)", 0), ("(2,)", 1)], none⟩ : ConfigCounter).config_counter = 2 ∧
    (⟨2, [("(1,)", 0), ("(2,)", 1)], none⟩ : ConfigCounter).table.length = 2 ∧
    (⟨2, [("(1,)", 0), ("(2,)", 1)], none⟩ : ConfigCounter).table.map Prod.snd =
      List.range 2 := by
  refine ⟨by decide, ?_⟩
  have h := C4_dense_id_assignment none
    [[("a", Value.int 1)], [("a", Value.int 2)]]
    ⟨2, [("(1,)", 0), ("(2,)", 1)], none⟩ (by decide)
  simpa using h

/-- C5: two configurations with identical non-resource entries and
(possibly different) resource values share a base ID after a single
insert of the first one: `config_id` succeeds on both, rendering the bare
ID when the configuration carries no resource value and `<id>:<resource>`
when it does. -/
theorem C5_shared_base_id (e : ExtendedConfiguration) (c1 c2 : Config)
    (hsame : sortItems (toKey c1 (some e)).2.1 =
      sortItems (toKey c2 (some e)).2.1)
    (_hdiff : (toKey c1 (some e)).2.2 ≠ (toKey c2 (some e)).2.2) :
    ∃ cc d r, add_config (mkConfigCounter (some e)) c1 = .ok (cc, d, r) ∧
      config_id cc c1 = .ok (renderId 0 (toKey c1 (some e)).2.2) ∧
      config_id cc c2 = .ok (renderId 0 (toKey c2 (some e)).2.2) := by
  have hkey : (toKey c1 (some e)).1 = (toKey c2 (some e)).1 := by
    rw [toKey_fst c1 (some e), toKey_fst c2 (some e)]
    exact keyOf_eq_of_sortItems_eq hsame
  refine ⟨_, _, _, rfl, ?_, ?_⟩
  · unfold config_id
    simp only [mkConfigCounter, List.nil_append, tableGet, List.find?,
      beq_self_eq_true]
    cases hr : (toKey c1 (some e)).2.2 <;> simp [renderId]
  · unfold config_id
    simp only [mkConfigCounter, List.nil_append, tableGet, List.find?]
    rw [← hkey]
    simp only [beq_self_eq_true]
    cases hr : (toKey c2 (some e)).2.2 <;> simp [renderId]

/-- C5 witness: the claim evaluated on `x=1` at resources 5 and 9 with
resource attribute `resource`. -/
theorem C5_shared_base_id_witness :
    ∃ cc d r,
      add_config (mkConfigCounter (some ⟨"resource"⟩))
          [("x", Value.int 1), ("resource", Value.int 5)] = .ok (cc, d, r) ∧
      config_id cc [("x", Value.int 1), ("resource", Value.int 5)] =
        .ok (renderId 0
          (toKey [("x", Value.int 1), ("resource", Value.int 5)]
            (some ⟨"resource"⟩)).2.2) ∧
      config_id cc [("x", Value.int 1), ("resource", Value.int 9)] =
        .ok (renderId 0
          (toKey [("x", Value.int 1), ("resource", Value.int 9)]
            (some ⟨"resource"⟩)).2.2) :=
  C5_shared_base_id ⟨"resource"⟩
    [("x", Value.int 1), ("resource", Value.int 5)]
    [("x", Value.int 1), ("resource", Value.int 9)]
    (by decide) (by decide)

/-- C7: on an open BO block whose configuration was finalized, `flush`
succeeds even when any of the expected fields state, targets or gp-params
was never supplied: a missing field is omitted from the report, a
non-fatal diagnostic noting the absence is recorded instead, and the
flush clears the block and returns the printer to idle. -/
theorem C7_flush_soft_fields (p : DebugLogPrinter) (fc : String)
    (hopen : p.get_config_type = some GCType.bo)
    (hfc : p.block_info.final_config = some fc) :
    ∃ msg diags q, write_block p = .ok (msg, diags, q) ∧
      q.get_config_type = none ∧
      q.block_info = emptyBlockInfo ∧
      q.config_counter = p.config_counter ∧
      (p.block_info.stateField = none → missingMsg "state" ∈ diags) ∧
      (p.block_info.targets = none → missingMsg "targets" ∈ diags) ∧
      (p.block_info.params = none → missingMsg "params" ∈ diags) := by
  unfold write_block
  rw [hopen]
  dsimp only
  rw [hfc]
  refine ⟨_, _, _, rfl, rfl, rfl, rfl, ?_, ?_, ?_⟩
  · intro h
    rw [h]
    simp
  · intro h
    rw [h]
    simp
  · intro h
    rw [h]
    simp

/-- C7 witness: a BO block with only the finalized configuration set
flushes successfully, recording all three missing-part diagnostics. -/
theorem C7_flush_soft_fields_witness :
    ∃ msg diags q,
      write_block
          { config_counter := mkConfigCounter none,
            block_info := { emptyBlockInfo with final_config := some "x: 1" },
            get_config_type := some GCType.bo } = .ok (msg, diags, q) ∧
      q.get_config_type = none ∧
      q.block_info = emptyBlockInfo ∧
      q.config_counter =
        ({ config_counter := mkConfigCounter none,
           block_info := { emptyBlockInfo with final_config := some "x: 1" },
           get_config_type := some GCType.bo } : DebugLogPrinter).config_counter ∧
      (({ config_counter := mkConfigCounter none,
          block_info := { emptyBlockInfo with final_config := some "x: 1" },
          get_config_type := some GCType.bo } : DebugLogPrinter).block_info.stateField = none →
        missingMsg "state" ∈ diags) ∧
      (({ config_counter := mkConfigCounter none,
          block_info := { emptyBlockInfo with final_config := some "x: 1" },
          get_config_type := some GCType.bo } : DebugLogPrinter).block_info.targets = none →
        missingMsg "targets" ∈ diags) ∧
      (({ config_counter := mkConfigCounter none,
          block_info := { emptyBlockInfo with final_config := some "x: 1" },
          get_config_type := some GCType.bo } : DebugLogPrinter).block_info.params = none →
        missingMsg "params" ∈ diags) :=
  C7_flush_soft_fields _ "x: 1" rfl rfl

/-- C8: on an open block whose configuration was finalized, `flush` emits
exactly one report laid out as `reportSpec` describes: the header
`[<id>: <kind>]` (with `(<n> evaluations)` appended when an evaluation
count was set, and `<id>` the registry counter minus one), the finalized
configuration, then for BO blocks the optional start-config block, the
state, targets and gp-params lines, the optional fantasies block, and
finally the optional extra block, each optional part present only if it
was set. -/
theorem C8_flush_report_layout (p : DebugLogPrinter) (t : GCType)
    (fc : String)
    (hopen : p.get_config_type = some t)
    (hfc : p.block_info.final_config = some fc) :
    ∃ diags q, write_block p =
      .ok (reportSpec t p.config_counter.config_counter fc p.block_info,
           diags, q) := by
  unfold write_block reportSpec
  rw [hopen]
  dsimp only
  rw [hfc]
  exact ⟨_, _, rfl⟩

/-- C8 witness: the layout theorem evaluated on a BO block carrying an
evaluation count, a finalized configuration and an extra line. -/
theorem C8_flush_report_layout_witness :
    ∃ diags q,
      write_block
          { config_counter := ⟨1, [("(7,)", 0)], none⟩,
            block_info := { emptyBlockInfo with
              final_config := some "x: 7",
              num_evals := some 20,
              extra := some "acquisition took 3 trials" },
            get_config_type := some GCType.bo } =
        .ok (reportSpec GCType.bo 1 "x: 7"
               { emptyBlockInfo with
                 final_config := some "x: 7",
                 num_evals := some 20,
                 extra := some "acquisition took 3 trials" },
             diags, q) :=
  C8_flush_report_layout _ GCType.bo "x: 7" rfl rfl

/-- C6: exporting the registry state and restoring it into a fresh
printer built over the same configuration space succeeds (no block is
open on a fresh printer) and reproduces a registry with identical future
`config_id` and `add_config` behavior. -/
theorem C6_checkpoint_roundtrip (p : DebugLogPrinter) :
    ∃ q, DebugLogPrinter.set_mutable_state
        (mkPrinter p.config_counter.configspace_ext)
        (DebugLogPrinter.get_mutable_state p) = .ok q ∧
      q.config_counter = p.config_counter ∧
      (∀ c, config_id q.config_counter c = config_id p.config_counter c) ∧
      (∀ c, add_config q.config_counter c = add_config p.config_counter c) := by
  obtain ⟨⟨cnt, tbl, ext⟩, bi, gct⟩ := p
  exact ⟨_, rfl, rfl, fun c => rfl, fun c => rfl⟩

/-- C6 witness: the round trip evaluated on a one-entry registry. -/
theorem C6_checkpoint_roundtrip_witness :
    ∃ q, DebugLogPrinter.set_mutable_state
        (mkPrinter
          (⟨⟨1, [("(1,)", 0)], none⟩, emptyBlockInfo, none⟩ :
            DebugLogPrinter).config_counter.configspace_ext)
        (DebugLogPrinter.get_mutable_state
          (⟨⟨1, [("(1,)", 0)], none⟩, emptyBlockInfo, none⟩ :
            DebugLogPrinter)) = .ok q ∧
      q.config_counter =
        (⟨⟨1, [("(1,)", 0)], none⟩, emptyBlockInfo, none⟩ :
          DebugLogPrinter).config_counter ∧
      (∀ c, config_id q.config_counter c =
        config_id (⟨1, [("(1,)", 0)], none⟩ : ConfigCounter) c) ∧
      (∀ c, add_config q.config_counter c =
        add_config (⟨1, [("(1,)", 0)], none⟩ : ConfigCounter) c) :=
  C6_checkpoint_roundtrip
    ⟨⟨1, [("(1,)", 0)], none⟩, emptyBlockInfo, none⟩

/-- When the configuration carries the resource attribute, the stripped
dict `toKey` returns is the configuration with that attribute removed. -/
theorem toKey_dict_of_resource {c : Config} {e : ExtendedConfiguration}
    {v : Value} (h : dictGet c e.resource_attr_name = some v) :
    (toKey c (some e)).2.1 = remove_resource e c := by
  unfold toKey
  dsimp only
  rw [h]

/-- When the configuration does not carry the resource attribute, `toKey`
leaves it unchanged and reports no resource. -/
theorem toKey_of_no_resource {d : Config} {e : ExtendedConfiguration}
    (h : dictGet d e.resource_attr_name = none) :
    toKey d (some e) = (keyOf d, d, none) := by
  unfold toKey
  dsimp only
  rw [h]

/-- C9: while a block is open, `set_final_config` on a resource-carrying
configuration whose base canonical key is not yet registered fails on the
no-resource assertion, yet the registry was mutated before the failure:
the error state has the base key in the table and the counter
incremented, so the failed call is not atomic and a subsequent insert of
the same base configuration fails as a duplicate. -/
theorem C9_set_final_config_not_atomic (p : DebugLogPrinter)
    (c : Config) (e : ExtendedConfiguration) (v : Value) (t : GCType)
    (hopen : p.get_config_type = some t)
    (hext : p.config_counter.configspace_ext = some e)
    (hres : dictGet c e.resource_attr_name = some v)
    (hnew : tableGet p.config_counter.table (toKey c (some e)).1 = none) :
    ∃ p2, set_final_config p c =
        .error ("set_final_config: config must not be extended", p2) ∧
      p2.config_counter.config_counter =
        p.config_counter.config_counter + 1 ∧
      tableGet p2.config_counter.table (toKey c (some e)).1 =
        some p.config_counter.config_counter ∧
      add_config p2.config_counter (toKey c (some e)).2.1 =
        .error (dupMsg (toKey c (some e)).2.1 p.config_counter.config_counter,
          p2.config_counter) := by
  have hd := toKey_dict_of_resource hres
  have hdget : dictGet (toKey c (some e)).2.1 e.resource_attr_name = none := by
    rw [hd]
    exact dictGet_remove_resource e c
  have htk_d := toKey_of_no_resource hdget
  have hac : add_config p.config_counter c =
      .ok ({ p.config_counter with
              table := p.config_counter.table ++
                [((toKey c (some e)).1, p.config_counter.config_counter)],
              config_counter := p.config_counter.config_counter + 1 },
           (toKey c (some e)).2.1, some v) := by
    unfold add_config
    dsimp only
    rw [hext, hnew, (toKey_resource c e).trans hres]
  refine ⟨{ p with config_counter := { p.config_counter with
      table := p.config_counter.table ++
        [((toKey c (some e)).1, p.config_counter.config_counter)],
      config_counter := p.config_counter.config_counter + 1 } },
    ?_, rfl, tableGet_append_self _ hnew, ?_⟩
  · unfold set_final_config
    rw [hopen]
    dsimp only
    rw [hac]
  · unfold add_config
    dsimp only
    rw [hext, htk_d]
    dsimp only
    rw [← toKey_fst c (some e),
      tableGet_append_self p.config_counter.config_counter hnew]

/-- C9 witness: a fresh printer with an open block, resource attribute
`epoch`, and the extended configuration `x=1, epoch=3`. -/
theorem C9_set_final_config_not_atomic_witness :
    ∃ p2, set_final_config
        { config_counter := mkConfigCounter (some ⟨"epoch"⟩),
          block_info := emptyBlockInfo,
          get_config_type := some GCType.random }
        [("x", Value.int 1), ("epoch", Value.int 3)] =
        .error ("set_final_config: config must not be extended", p2) ∧
      p2.config_counter.config_counter =
        ({ config_counter := mkConfigCounter (some ⟨"epoch"⟩),
           block_info := emptyBlockInfo,
           get_config_type := some GCType.random } :
          DebugLogPrinter).config_counter.config_counter + 1 ∧
      tableGet p2.config_counter.table
          (toKey [("x", Value.int 1), ("epoch", Value.int 3)]
            (some ⟨"epoch"⟩)).1 =
        some ({ config_counter := mkConfigCounter (some ⟨"epoch"⟩),
                block_info := emptyBlockInfo,
                get_config_type := some GCType.random } :
          DebugLogPrinter).config_counter.config_counter ∧
      add_config p2.config_counter
          (toKey [("x", Value.int 1), ("epoch", Value.int 3)]
            (some ⟨"epoch"⟩)).2.1 =
        .error (dupMsg
            (toKey [("x", Value.int 1), ("epoch", Value.int 3)]
              (some ⟨"epoch"⟩)).2.1
            ({ config_counter := mkConfigCounter (some ⟨"epoch"⟩),
               block_info := emptyBlockInfo,
               get_config_type := some GCType.random } :
              DebugLogPrinter).config_counter.config_counter,
          p2.config_counter) :=
  C9_set_final_config_not_atomic _ _ ⟨"epoch"⟩ (Value.int 3) GCType.random
    rfl rfl (by decide) (by decide)

end AutogluonDebugLog

namespace AutogluonLoadPkl

/-- C10: `find_class(module, name)` returns the named builtin exactly when
the module is `builtins` and the name is on the five-element allow-list,
and raises an `UnpicklingError` for every other pair, so `restricted_loads`
never resolves a global outside the allow-list. -/
theorem C10_find_class_allowlist (module name : String) :
    (find_class module name = .builtin name ↔
      module = "builtins" ∧ name ∈ safe_builtins) ∧
    (¬(module = "builtins" ∧ name ∈ safe_builtins) →
      find_class module name =
        .unpicklingError ("global " ++ AutogluonDebugLog.sq ++ module ++ "." ++
          name ++ AutogluonDebugLog.sq ++ " is forbidden")) := by
  have hcond : (module == "builtins" && safe_builtins.contains name) = true ↔
      (module = "builtins" ∧ name ∈ safe_builtins) := by
    simp
  unfold find_class
  by_cases h : module = "builtins" ∧ name ∈ safe_builtins
  · rw [if_pos (hcond.mpr h)]
    simp [h]
  · rw [if_neg (fun hc => h (hcond.mp hc))]
    simp [h]

/-- C10 witness: the allow-list rule evaluated at the allowed pair
`builtins.range`. -/
theorem C10_find_class_allowlist_witness :
    (find_class "builtins" "range" = .builtin "range" ↔
      "builtins" = "builtins" ∧ "range" ∈ safe_builtins) ∧
    (¬("builtins" = "builtins" ∧ "range" ∈ safe_builtins) →
      find_class "builtins" "range" =
        .unpicklingError ("global " ++ AutogluonDebugLog.sq ++ "builtins" ++
          "." ++ "range" ++ AutogluonDebugLog.sq ++ " is forbidden")) :=
  C10_find_class_allowlist "builtins" "range"

end AutogluonLoadPkl
